import Mathlib

/-!
Verification of the story-generation client (storyService.ts, apiService.ts,
useApiWithTokenRefresh.ts, and the story-player screen's polling code).

The TypeScript is embedded shallowly: JSON values with optional fields become
structures with `Option` fields, JavaScript truthiness of the `||` operator is
modelled explicitly (`jsOrString`, `jsOrNat`, ...), asynchronous network calls
become explicit `Except`/response-sequence parameters, and AsyncStorage-backed
state becomes explicit state passing over a `List LocalStoryMetadata` cache.
-/

/-- Story status values used across the client
(`'processing' | 'completed' | 'failed'`). -/
inductive StoryStatus where
  | processing
  | completed
  | failed
deriving DecidableEq, Repr

/-- JavaScript `a || b` for an optional string `a`: an absent value and the
empty string are falsy and fall through to `b`. -/
def jsOrString (a : Option String) (b : String) : String :=
  match a with
  | some s => if s = "" then b else s
  | none => b

/-- JavaScript `a || b` for an optional number `a`: absent and `0` are falsy. -/
def jsOrNat (a : Option Nat) (b : Nat) : Nat :=
  match a with
  | some n => if n = 0 then b else n
  | none => b

/-- JavaScript `a || b` where both sides are optional strings
(`serverStory.generated_at || serverStory.created_at`). -/
def jsOrOptString (a b : Option String) : Option String :=
  match a with
  | some s => if s = "" then b else some s
  | none => b

/-- `StoryScene` from storyService.ts (scene_number, text, visual_prompt,
audio_url, image_url, start_time, duration). Numeric fields are modelled
as `Nat`; no claim depends on their arithmetic. -/
structure StoryScene where
  scene_number : Nat
  text : String
  visual_prompt : String
  audio_url : String
  image_url : String
  start_time : Nat
  duration : Nat
deriving DecidableEq, Repr

/-- The raw (untyped, `any`) story object as received from the server, before
`convertServerStoryFormat` fills in defaults. Fields the converter guards
with `||` or `?.` are `Option`s. -/
structure RawServerStory where
  story_id : String
  title : String
  user_prompt : Option String
  total_scenes : Option Nat
  total_duration : Option Nat
  scenes : Option (List StoryScene)
  status : Option StoryStatus
  generated_at : Option String
  created_at : Option String
  thumbnail_url : Option String
  optimizations : Option (List String)
deriving DecidableEq, Repr

/-- `ServerStory` from storyService.ts, the normalized record produced by
`convertServerStoryFormat`. `user_prompt` and `generated_at` stay optional
because the converter copies them without a default. -/
structure ServerStory where
  story_id : String
  title : String
  user_prompt : Option String
  total_scenes : Nat
  total_duration : Nat
  scenes : List StoryScene
  status : StoryStatus
  generated_at : Option String
  optimizations : List String
deriving DecidableEq, Repr

/-- `convertServerStoryFormat` from storyService.ts:
`total_scenes: serverStory.total_scenes || serverStory.scenes?.length || 0`,
`total_duration: serverStory.total_duration || 0`,
`scenes: serverStory.scenes || []` (an empty array is truthy, so only an
absent field falls back), `status: serverStory.status || 'completed'`,
`generated_at: serverStory.generated_at || serverStory.created_at`,
`optimizations: serverStory.optimizations || []`. -/
def convertServerStoryFormat (s : RawServerStory) : ServerStory :=
  { story_id := s.story_id
    title := s.title
    user_prompt := s.user_prompt
    total_scenes := jsOrNat s.total_scenes (jsOrNat (s.scenes.map List.length) 0)
    total_duration := jsOrNat s.total_duration 0
    scenes := s.scenes.getD []
    status := s.status.getD StoryStatus.completed
    generated_at := jsOrOptString s.generated_at s.created_at
    optimizations := s.optimizations.getD [] }

/-- `LocalStoryMetadata` from storyService.ts, the persisted cache entry.
`generatedTime` is optional because `pollStoryCompletion` stores
`serverStory.generated_at`, which can be absent. -/
structure LocalStoryMetadata where
  id : String
  title : String
  description : String
  generatedTime : Option String
  duration : Nat
  status : StoryStatus
  thumbnail : Option String
deriving DecidableEq, Repr

/-- The ids of the cache entries, in order. -/
def idsOf (c : List LocalStoryMetadata) : List String :=
  c.map LocalStoryMetadata.id

/-- Replace the first entry whose id equals `story.id` (the
`stories[existingIndex] = story` arm of `saveLocalStoryMetadata`, where
`existingIndex` is the first index found by `findIndex`). -/
def replaceFirstStory (story : LocalStoryMetadata) :
    List LocalStoryMetadata → List LocalStoryMetadata
  | [] => []
  | s :: rest =>
    if s.id = story.id then story :: rest
    else s :: replaceFirstStory story rest

/-- `saveLocalStoryMetadata` from storyService.ts: `findIndex` on the id; if
found (`existingIndex >= 0`) replace in place, else `unshift` (prepend). -/
def saveLocalStoryMetadata (story : LocalStoryMetadata)
    (stories : List LocalStoryMetadata) : List LocalStoryMetadata :=
  if stories.any (fun s => s.id = story.id) then replaceFirstStory story stories
  else story :: stories

/-- `updateLocalStoryStatus` from storyService.ts: `find` the first entry with
the given id and overwrite its `status`; when the id is absent nothing is
written, so the list is unchanged. -/
def updateLocalStoryStatus (story_id : String) (status : StoryStatus) :
    List LocalStoryMetadata → List LocalStoryMetadata
  | [] => []
  | s :: rest =>
    if s.id = story_id then { s with status := status } :: rest
    else s :: updateLocalStoryStatus story_id status rest

/-- The status of the first cache entry with the given id, if any. -/
def lookupStatus (story_id : String) (c : List LocalStoryMetadata) :
    Option StoryStatus :=
  (c.find? (fun s => s.id = story_id)).map LocalStoryMetadata.status

/-- `StoryApiResponse` from apiConfig.ts: `{success, message?, story_id?,
status?, story?}`. The `story` payload is the raw server story object. -/
structure StoryApiResponse where
  success : Bool
  message : Option String
  story_id : Option String
  status : Option StoryStatus
  story : Option RawServerStory
deriving DecidableEq, Repr

/-- One polling attempt's network outcome: `makeRequest` either returns a
parsed response or throws (network / non-2xx error with a message). -/
inductive AttemptResult where
  | ok (resp : StoryApiResponse)
  | err (msg : String)
deriving DecidableEq, Repr

/-- Outcome of `pollStoryCompletion`: return of the converted story, a thrown
error (server-reported failure or final network error), or the final
`throw new Error('Story generation timed out')`. -/
inductive PollResult where
  | success (story : ServerStory)
  | failure (msg : String)
  | timeout
deriving DecidableEq, Repr

/-- Observable state threaded through the poll loop: the local cache, the
`onProgress` callback arguments, the `setTimeout` sleep durations, and the
number of `checkStoryStatus` fetches performed. -/
structure PollState where
  cache : List LocalStoryMetadata
  progress : List StoryStatus
  waits : List Nat
  fetchCount : Nat
deriving DecidableEq, Repr

/-- `maxAttempts = 20` in `pollStoryCompletion`. -/
def maxAttempts : Nat := 20

/-- `pollInterval = 15000` (milliseconds) in `pollStoryCompletion`. -/
def pollInterval : Nat := 15000

/-- The cache entry written by `pollStoryCompletion` when a response carries a
story: `{id: story_id, title, description: response.story.user_prompt || '',
generatedTime: serverStory.generated_at, duration: serverStory.total_duration,
status: 'completed', thumbnail: serverStory.scenes[0]?.image_url}`. -/
def completedEntry (sid : String) (raw : RawServerStory) : LocalStoryMetadata :=
  let serverStory := convertServerStoryFormat raw
  { id := sid
    title := serverStory.title
    description := jsOrString raw.user_prompt ""
    generatedTime := serverStory.generated_at
    duration := serverStory.total_duration
    status := StoryStatus.completed
    thumbnail := serverStory.scenes.head?.map StoryScene.image_url }

/-- The body of the `for` loop in `pollStoryCompletion`. `attempt` is the
1-based loop counter and `remaining + 1` the number of iterations left, so
`remaining = 0` exactly when `attempt === maxAttempts`. The branch structure
mirrors the source: `response.success && response.story` completes;
`response.status === 'failed'` patches the cache and throws (the throw is
caught by the surrounding `catch`, which at the last attempt patches again
and rethrows, and otherwise sleeps and continues); anything else invokes
`onProgress(response.status || 'processing')` and sleeps unless this was the
last attempt. A thrown fetch (`AttemptResult.err`) goes straight to the
`catch`. Falling out of the loop patches the cache to `failed` and throws
the timed-out error. -/
def pollAux (responses : Nat → AttemptResult) (sid : String) :
    Nat → Nat → PollState → PollResult × PollState
  | _attempt, 0, st =>
    (PollResult.timeout,
     { st with cache := updateLocalStoryStatus sid StoryStatus.failed st.cache })
  | attempt, remaining + 1, st =>
    let st1 : PollState := { st with fetchCount := st.fetchCount + 1 }
    match responses attempt with
    | AttemptResult.err msg =>
      if remaining = 0 then
        (PollResult.failure msg,
         { st1 with cache := updateLocalStoryStatus sid StoryStatus.failed st1.cache })
      else
        pollAux responses sid (attempt + 1) remaining
          { st1 with waits := st1.waits ++ [pollInterval] }
    | AttemptResult.ok resp =>
      if h : resp.success = true ∧ resp.story.isSome then
        let raw := resp.story.get h.2
        (PollResult.success (convertServerStoryFormat raw),
         { st1 with cache := saveLocalStoryMetadata (completedEntry sid raw) st1.cache })
      else if resp.status = some StoryStatus.failed then
        let st2 : PollState :=
          { st1 with cache := updateLocalStoryStatus sid StoryStatus.failed st1.cache }
        if remaining = 0 then
          (PollResult.failure (jsOrString resp.message "Story generation failed"),
           { st2 with cache := updateLocalStoryStatus sid StoryStatus.failed st2.cache })
        else
          pollAux responses sid (attempt + 1) remaining
            { st2 with waits := st2.waits ++ [pollInterval] }
      else
        let st2 : PollState :=
          { st1 with progress := st1.progress ++ [resp.status.getD StoryStatus.processing] }
        if remaining = 0 then
          pollAux responses sid (attempt + 1) remaining st2
        else
          pollAux responses sid (attempt + 1) remaining
            { st2 with waits := st2.waits ++ [pollInterval] }

/-- `pollStoryCompletion` from storyService.ts, as a function of the sequence
of per-attempt fetch results (indexed by the 1-based attempt counter) and the
initial cache contents. -/
def pollStoryCompletion (responses : Nat → AttemptResult) (sid : String)
    (cache : List LocalStoryMetadata) : PollResult × PollState :=
  pollAux responses sid 1 maxAttempts
    { cache := cache, progress := [], waits := [], fetchCount := 0 }

/-- A fetch result reporting the job still in progress: a parsed response with
no `story` payload and `status: 'processing'`. -/
def StillProcessingResp (a : AttemptResult) : Prop :=
  ∃ r, a = AttemptResult.ok r ∧ r.story = none ∧
    r.status = some StoryStatus.processing

/-- Result of `generateStory` in storyService.ts: the returned
`{story_id, status}` or the thrown error message. -/
inductive GenerateResult where
  | ok (story_id : String) (status : StoryStatus)
  | error (msg : String)
deriving DecidableEq, Repr

/-- `generateStory` from storyService.ts: on `response.success &&
response.story_id` (truthiness: the id must be present and non-empty), write
the placeholder entry `{id: story_id, title: 'Generating...', description:
prompt, generatedTime: now, duration: 0, status: 'processing'}` through
`saveLocalStoryMetadata` and return `{story_id, status: response.status ||
'processing'}`; otherwise throw `response.message || 'Failed to start story
generation'`. A thrown `makeRequest` propagates unchanged and touches
nothing. -/
def generateStory (now prompt : String) (resp : Except String StoryApiResponse)
    (cache : List LocalStoryMetadata) :
    GenerateResult × List LocalStoryMetadata :=
  match resp with
  | Except.error e => (GenerateResult.error e, cache)
  | Except.ok r =>
    match r.story_id with
    | some sid =>
      if r.success = true ∧ sid ≠ "" then
        (GenerateResult.ok sid (r.status.getD StoryStatus.processing),
         saveLocalStoryMetadata
           { id := sid, title := "Generating...", description := prompt,
             generatedTime := some now, duration := 0,
             status := StoryStatus.processing, thumbnail := none } cache)
      else
        (GenerateResult.error (jsOrString r.message "Failed to start story generation"),
         cache)
    | none =>
      (GenerateResult.error (jsOrString r.message "Failed to start story generation"),
       cache)

/-- Response of the list-stories endpoint as used by `getUserStories`
(only `response.stories` is inspected). -/
structure ListStoriesResponse where
  success : Bool
  stories : Option (List RawServerStory)
  message : Option String
deriving DecidableEq, Repr

/-- The per-story mapping inside `getUserStories`: `{id: story.story_id,
title, description: story.user_prompt || '', generatedTime: story.created_at
|| story.generated_at, duration: story.total_duration || 0, status:
story.status || 'completed', thumbnail: story.thumbnail_url}`. -/
def serverToLocal (story : RawServerStory) : LocalStoryMetadata :=
  { id := story.story_id
    title := story.title
    description := jsOrString story.user_prompt ""
    generatedTime := jsOrOptString story.created_at story.generated_at
    duration := jsOrNat story.total_duration 0
    status := story.status.getD StoryStatus.completed
    thumbnail := story.thumbnail_url }

/-- `getUserStories` from storyService.ts, returning (result, cache after the
call). A successful response with a `stories` array (an empty array is
truthy) is mapped and saved via `saveAllLocalStories`, replacing the cache;
a thrown request, or a response without a `stories` field, falls back to
`getLocalStories()` and leaves the cache as it was. -/
def getUserStories (resp : Except String ListStoriesResponse)
    (cache : List LocalStoryMetadata) :
    List LocalStoryMetadata × List LocalStoryMetadata :=
  match resp with
  | Except.error _ => (cache, cache)
  | Except.ok r =>
    match r.stories with
    | some stories =>
      let locals := stories.map serverToLocal
      (locals, locals)
    | none => (cache, cache)

/-- The error object inspected by `isTokenRelatedError` in
useApiWithTokenRefresh.ts: `message?`, `status?`, `statusCode?`. -/
structure JsError where
  message : Option String
  status : Option Nat
  statusCode : Option Nat
deriving DecidableEq, Repr

/-- `needle.isPrefixOf` scanned along the haystack: JavaScript
`String.prototype.includes` on the character lists. -/
def charsInclude (needle : List Char) : List Char → Bool
  | [] => needle.isPrefixOf ([] : List Char)
  | c :: rest => needle.isPrefixOf (c :: rest) || charsInclude needle rest

/-- JavaScript `haystack.includes(needle)`. -/
def strIncludes (haystack needle : String) : Bool :=
  charsInclude needle.toList haystack.toList

/-- The keyword list of `isTokenRelatedError`. -/
def tokenErrorKeywords : List String :=
  ["token", "unauthorized", "expired", "invalid", "authentication",
   "forbidden", "session"]

/-- `isTokenRelatedError` from useApiWithTokenRefresh.ts:
`errorMessage = error.message?.toLowerCase() || ''`,
`errorStatus = error.status || error.statusCode` (0 is falsy), true when the
status is 401 or 403 or when any keyword occurs in the message. -/
def isTokenRelatedError (e : JsError) : Bool :=
  let errorMessage := (e.message.getD "").toLower
  let errorStatus : Option Nat :=
    match e.status with
    | some n => if n = 0 then e.statusCode else some n
    | none => e.statusCode
  if errorStatus = some 401 ∨ errorStatus = some 403 then true
  else tokenErrorKeywords.any (fun k => strIncludes errorMessage k)

/-- Observable behaviour of one `executeApiCall` invocation: the value
returned or error rethrown, how many times `refreshAuthToken` ran, how many
times the wrapped `apiCall` ran, and whether the session-expired sign-out
alert was raised. -/
structure ApiCallTrace (T : Type) where
  result : Except JsError T
  refreshAttempts : Nat
  callAttempts : Nat
  signOutPrompted : Bool
deriving Repr

/-- `executeApiCall` from useApiWithTokenRefresh.ts, as a function of the
outcome of the first `apiCall()`, of `refreshAuthToken()`, and of the retried
`apiCall()`. On a first-attempt error that `isTokenRelatedError` recognises
(with `retryOnTokenRefresh`), the wrapper refreshes and retries once; the
inner `catch` turns a failing refresh or a failing retry into the
session-expired alert (sign-out) and rethrows that failure. Any other error
is rethrown without refresh or retry. -/
def executeApiCall {T : Type} (first : Except JsError T)
    (refreshRes : Except JsError Unit) (second : Except JsError T)
    (retryOnTokenRefresh : Bool) : ApiCallTrace T :=
  match first with
  | Except.ok v =>
    { result := Except.ok v, refreshAttempts := 0, callAttempts := 1,
      signOutPrompted := false }
  | Except.error e =>
    if isTokenRelatedError e = true ∧ retryOnTokenRefresh = true then
      match refreshRes with
      | Except.error re =>
        { result := Except.error re, refreshAttempts := 1, callAttempts := 1,
          signOutPrompted := true }
      | Except.ok _ =>
        match second with
        | Except.ok v =>
          { result := Except.ok v, refreshAttempts := 1, callAttempts := 2,
            signOutPrompted := false }
        | Except.error e2 =>
          { result := Except.error e2, refreshAttempts := 1, callAttempts := 2,
            signOutPrompted := true }
    else
      { result := Except.error e, refreshAttempts := 0, callAttempts := 1,
        signOutPrompted := false }

/-- The body sent by `apiService.generateStory`:
`{firebase_token: token, prompt: prompt}`. -/
structure GenerateRequest where
  firebase_token : String
  prompt : String
deriving DecidableEq, Repr

/-- `generateStory` from apiService.ts: it builds the request body from the
prompt and token verbatim and returns whatever `makeRequest` produces — there
is no client-side validation of the prompt. The server's behaviour is the
`server` parameter. -/
def apiGenerateStory (prompt token : String)
    (server : GenerateRequest → Except String StoryApiResponse) :
    Except String StoryApiResponse :=
  server { firebase_token := token, prompt := prompt }

/-- What `handleGenerateStory` in app/(tabs)/index.tsx does before any network
activity. -/
inductive GenerateUiOutcome where
  | alertPromptRequired
  | alertSignIn
  | called (prompt : String) (token : String)
deriving DecidableEq, Repr

/-- JavaScript `String.prototype.trim`: strip leading and trailing
whitespace. -/
def jsTrim (s : String) : String :=
  String.mk
    (((s.data.dropWhile Char.isWhitespace).reverse.dropWhile
        Char.isWhitespace).reverse)

/-- The guard of `handleGenerateStory` in app/(tabs)/index.tsx: an empty (or
all-whitespace) prompt alerts and returns without calling the API; a missing
token alerts; otherwise `apiService.generateStory(storyPrompt.trim(), token)`
is invoked. -/
def handleGenerateStory (storyPrompt : String) (token : Option String) :
    GenerateUiOutcome :=
  if jsTrim storyPrompt = "" then GenerateUiOutcome.alertPromptRequired
  else
    match token with
    | none => GenerateUiOutcome.alertSignIn
    | some t =>
      if t = "" then GenerateUiOutcome.alertSignIn
      else GenerateUiOutcome.called (jsTrim storyPrompt) t

/-- State of the story-player screen's poller (part_004 `startPolling`):
whether the `setInterval` handle is live, how many dispatched fetches have
not yet resolved, the `setStory` component state, and a counter of
local-story-cache writes — the interval callback only ever calls `setStory`
and `clearInterval`, so nothing in the step function increments it. -/
structure PlayerPollState where
  intervalActive : Bool
  inFlight : Nat
  story : Option RawServerStory
  cacheWrites : Nat
deriving DecidableEq, Repr

/-- Events of the player poller: an interval tick (dispatches a fetch only
while the interval is live), the unmount cleanup's `clearInterval`, and the
resolution of one in-flight fetch with a response. -/
inductive PlayerEvent where
  | tick
  | cancel
  | resolve (resp : StoryApiResponse)
deriving DecidableEq, Repr

/-- One step of the player poller. `resolve` runs the `startPolling` callback
body on the response: `if (response.success && response.story)` then
`setStory(response.story)` and, when that story's status is `'completed'`,
`clearInterval`. The callback performs no check of whether the interval was
already cleared, and never touches the local story cache. -/
def playerStep (st : PlayerPollState) : PlayerEvent → PlayerPollState
  | PlayerEvent.tick =>
    if st.intervalActive then { st with inFlight := st.inFlight + 1 } else st
  | PlayerEvent.cancel => { st with intervalActive := false }
  | PlayerEvent.resolve resp =>
    match st.inFlight with
    | 0 => st
    | n + 1 =>
      let st1 : PlayerPollState := { st with inFlight := n }
      if h : resp.success = true ∧ resp.story.isSome then
        let raw := resp.story.get h.2
        let st2 : PlayerPollState := { st1 with story := some raw }
        if raw.status = some StoryStatus.completed then
          { st2 with intervalActive := false }
        else st2
      else st1

/-- A run of the player poller over a sequence of events, from the state just
after `startPolling` installed the interval. -/
def runPlayerPoll (story0 : Option RawServerStory) (events : List PlayerEvent) :
    PlayerPollState :=
  events.foldl playerStep
    { intervalActive := true, inFlight := 0, story := story0, cacheWrites := 0 }

/-- A raw server story whose `status` is `completed` but whose `scenes` list
is present and empty, as delivered by the fetch endpoint. -/
def emptyScenesRaw : RawServerStory :=
  { story_id := "s1", title := "Empty", user_prompt := some "a prompt",
    total_scenes := none, total_duration := some 60,
    scenes := some [], status := some StoryStatus.completed,
    generated_at := some "2026-01-01T00:00:00Z", created_at := none,
    thumbnail_url := none, optimizations := none }

/-- A fetch response reporting success and carrying `emptyScenesRaw`. -/
def emptyScenesResp : StoryApiResponse :=
  { success := true, message := none, story_id := none,
    status := some StoryStatus.completed, story := some emptyScenesRaw }

/-- A raw server story used for the late-resolving fetch of the player
poller. -/
def lateRaw : RawServerStory :=
  { story_id := "s2", title := "Late", user_prompt := none,
    total_scenes := some 3, total_duration := some 90,
    scenes := none, status := some StoryStatus.processing,
    generated_at := none, created_at := some "2026-01-02T00:00:00Z",
    thumbnail_url := none, optimizations := none }

/-- A successful fetch response carrying `lateRaw`. -/
def lateResp : StoryApiResponse :=
  { success := true, message := none, story_id := none,
    status := some StoryStatus.processing, story := some lateRaw }

/-- A still-processing fetch response: success with no story payload. -/
def processingResp : StoryApiResponse :=
  { success := true, message := none, story_id := none,
    status := some StoryStatus.processing, story := none }

/-- A cache entry for story `s3` in the processing state. -/
def processingEntryS3 : LocalStoryMetadata :=
  { id := "s3", title := "Generating...", description := "p3",
    generatedTime := some "2026-01-03T00:00:00Z", duration := 0,
    status := StoryStatus.processing, thumbnail := none }

/-- A cache entry for story `s4` already in the terminal `completed` state. -/
def completedEntryS4 : LocalStoryMetadata :=
  { id := "s4", title := "Done", description := "p4",
    generatedTime := some "2026-01-04T00:00:00Z", duration := 120,
    status := StoryStatus.completed, thumbnail := none }

/-- A cache entry for story `s5` already in the terminal `completed` state. -/
def completedEntryS5 : LocalStoryMetadata :=
  { id := "s5", title := "Done5", description := "p5",
    generatedTime := some "2026-01-05T00:00:00Z", duration := 30,
    status := StoryStatus.completed, thumbnail := none }

/-- A successful generate response carrying a job id. -/
def generateOkResp : StoryApiResponse :=
  { success := true, message := none, story_id := some "job-1",
    status := some StoryStatus.processing, story := none }

/-- A server that accepts every generate request and returns `generateOkResp`
(job id `job-1`), regardless of the prompt. -/
def acceptingServer : GenerateRequest → Except String StoryApiResponse :=
  fun _ => Except.ok generateOkResp

/-- An auth-class error: HTTP 401. -/
def authError401 : JsError :=
  { message := some "Unauthorized", status := some 401, statusCode := none }

/-- A refresh failure used in the token-refresh witness. -/
def refreshFailure : JsError :=
  { message := some "Refresh token expired", status := some 401,
    statusCode := none }

/-- A raw server story without a `status` field, as the list endpoint may
return it. -/
def statuslessRaw : RawServerStory :=
  { story_id := "s6", title := "NoStatus", user_prompt := some "p6",
    total_scenes := none, total_duration := none,
    scenes := some [{ scene_number := 1, text := "a", visual_prompt := "b",
                      audio_url := "u", image_url := "i", start_time := 0,
                      duration := 10 }],
    status := none, generated_at := some "2026-01-06T00:00:00Z",
    created_at := none, thumbnail_url := none, optimizations := none }

lemma idsOf_nil : idsOf [] = [] := rfl

lemma idsOf_cons (s : LocalStoryMetadata) (rest : List LocalStoryMetadata) :
    idsOf (s :: rest) = s.id :: idsOf rest := rfl

lemma idsOf_append (l₁ l₂ : List LocalStoryMetadata) :
    idsOf (l₁ ++ l₂) = idsOf l₁ ++ idsOf l₂ := by
  simp [idsOf]

lemma idsOf_replaceFirstStory (e : LocalStoryMetadata) :
    ∀ c : List LocalStoryMetadata, idsOf (replaceFirstStory e c) = idsOf c := by
  intro c
  induction c with
  | nil => rfl
  | cons s rest ih =>
    by_cases hs : s.id = e.id
    · simp [replaceFirstStory, hs, idsOf_cons]
    · simp [replaceFirstStory, hs, idsOf_cons, ih]

lemma replaceFirstStory_append (e : LocalStoryMetadata) :
    ∀ l₁ : List LocalStoryMetadata, ∀ m : LocalStoryMetadata,
    ∀ l₂ : List LocalStoryMetadata, (∀ x ∈ l₁, x.id ≠ e.id) → m.id = e.id →
      replaceFirstStory e (l₁ ++ m :: l₂) = l₁ ++ e :: l₂ := by
  intro l₁
  induction l₁ with
  | nil =>
    intro m l₂ _ hm
    simp [replaceFirstStory, hm]
  | cons x rest ih =>
    intro m l₂ hx hm
    have hxe : x.id ≠ e.id := hx x (by simp)
    have hrest : ∀ y ∈ rest, y.id ≠ e.id := fun y hy => hx y (by simp [hy])
    simp only [List.cons_append, replaceFirstStory, if_neg hxe, List.append_eq]
    rw [ih m l₂ hrest hm]

lemma saveLocalStoryMetadata_of_mem (e : LocalStoryMetadata)
    (c : List LocalStoryMetadata) (h : ∃ m ∈ c, m.id = e.id) :
    saveLocalStoryMetadata e c = replaceFirstStory e c := by
  have : c.any (fun s => s.id = e.id) = true := by
    rcases h with ⟨m, hm, hid⟩
    simp [List.any_eq_true]
    exact ⟨m, hm, hid⟩
  simp [saveLocalStoryMetadata, this]

lemma saveLocalStoryMetadata_of_not_mem (e : LocalStoryMetadata)
    (c : List LocalStoryMetadata) (h : ∀ m ∈ c, m.id ≠ e.id) :
    saveLocalStoryMetadata e c = e :: c := by
  have : c.any (fun s => s.id = e.id) = false := by
    simp [List.any_eq_false]
    exact h
  simp [saveLocalStoryMetadata, this]

lemma idsOf_saveLocalStoryMetadata_of_mem (e : LocalStoryMetadata)
    (c : List LocalStoryMetadata) (h : ∃ m ∈ c, m.id = e.id) :
    idsOf (saveLocalStoryMetadata e c) = idsOf c := by
  rw [saveLocalStoryMetadata_of_mem e c h, idsOf_replaceFirstStory]

lemma mem_idsOf_saveLocalStoryMetadata (e : LocalStoryMetadata)
    (c : List LocalStoryMetadata) :
    e.id ∈ idsOf (saveLocalStoryMetadata e c) := by
  by_cases h : ∃ m ∈ c, m.id = e.id
  · rw [idsOf_saveLocalStoryMetadata_of_mem e c h]
    rcases h with ⟨m, hm, hid⟩
    exact hid ▸ List.mem_map_of_mem LocalStoryMetadata.id hm
  · push_neg at h
    rw [saveLocalStoryMetadata_of_not_mem e c h, idsOf_cons]
    simp

lemma nodup_idsOf_saveLocalStoryMetadata (e : LocalStoryMetadata)
    (c : List LocalStoryMetadata) (h : (idsOf c).Nodup) :
    (idsOf (saveLocalStoryMetadata e c)).Nodup := by
  by_cases hmem : ∃ m ∈ c, m.id = e.id
  · rw [idsOf_saveLocalStoryMetadata_of_mem e c hmem]
    exact h
  · push_neg at hmem
    rw [saveLocalStoryMetadata_of_not_mem e c hmem, idsOf_cons]
    refine List.Nodup.cons ?_ h
    intro hin
    rcases List.mem_map.mp hin with ⟨m, hm, hid⟩
    exact hmem m hm hid

lemma idsOf_foldl_saveLocalStoryMetadata (sid : String) :
    ∀ updates : List LocalStoryMetadata, (∀ u ∈ updates, u.id = sid) →
    ∀ acc : List LocalStoryMetadata, sid ∈ idsOf acc →
      idsOf (updates.foldl (fun a u => saveLocalStoryMetadata u a) acc) =
        idsOf acc := by
  intro updates
  induction updates with
  | nil => intro _ acc _; rfl
  | cons u rest ih =>
    intro hu acc hsid
    have hid : u.id = sid := hu u (by simp)
    have hmem : ∃ m ∈ acc, m.id = u.id := by
      rcases List.mem_map.mp hsid with ⟨m, hm, hmid⟩
      exact ⟨m, hm, by rw [hmid, hid]⟩
    have hids : idsOf (saveLocalStoryMetadata u acc) = idsOf acc :=
      idsOf_saveLocalStoryMetadata_of_mem u acc hmem
    have hrest : ∀ x ∈ rest, x.id = sid := fun x hx => hu x (by simp [hx])
    calc idsOf ((u :: rest).foldl (fun a x => saveLocalStoryMetadata x a) acc)
        = idsOf (rest.foldl (fun a x => saveLocalStoryMetadata x a)
            (saveLocalStoryMetadata u acc)) := by simp [List.foldl_cons]
      _ = idsOf (saveLocalStoryMetadata u acc) := by
            refine ih hrest (saveLocalStoryMetadata u acc) ?_
            rw [hids]; exact hsid
      _ = idsOf acc := hids

/-- C5: `saveLocalStoryMetadata` replaces in place (same position) when an
entry with the same id exists, otherwise prepends; id-uniqueness of the cache
is preserved; and an initial upsert followed by any sequence of upserts for
the same id (a generation followed by polls) leaves exactly one entry with
that id. -/
theorem saveLocalStoryMetadata_upsert_unique (e : LocalStoryMetadata)
    (c : List LocalStoryMetadata) (h : (idsOf c).Nodup) :
    (∀ l₁ m l₂, c = l₁ ++ m :: l₂ → m.id = e.id →
        saveLocalStoryMetadata e c = l₁ ++ e :: l₂)
  ∧ ((∀ m ∈ c, m.id ≠ e.id) → saveLocalStoryMetadata e c = e :: c)
  ∧ (idsOf (saveLocalStoryMetadata e c)).Nodup
  ∧ ∀ updates : List LocalStoryMetadata, (∀ u ∈ updates, u.id = e.id) →
      (idsOf (updates.foldl (fun acc u => saveLocalStoryMetadata u acc)
          (saveLocalStoryMetadata e c))).count e.id = 1 := by
  refine ⟨?_, ?_, ?_, ?_⟩
  · intro l₁ m l₂ hc hm
    subst hc
    have hno : m.id ∉ idsOf l₁ := by
      rw [idsOf_append, idsOf_cons] at h
      have := (List.nodup_append.mp h).2.2
      intro hmem
      exact this hmem (by simp)
    have hl₁ : ∀ x ∈ l₁, x.id ≠ e.id := by
      intro x hx heq
      exact hno (by rw [hm, ← heq]; exact List.mem_map_of_mem _ hx)
    rw [saveLocalStoryMetadata_of_mem e _ ⟨m, by simp, hm⟩]
    exact replaceFirstStory_append e l₁ m l₂ hl₁ hm
  · exact saveLocalStoryMetadata_of_not_mem e c
  · exact nodup_idsOf_saveLocalStoryMetadata e c h
  · intro updates hupd
    have hmem : e.id ∈ idsOf (saveLocalStoryMetadata e c) :=
      mem_idsOf_saveLocalStoryMetadata e c
    rw [idsOf_foldl_saveLocalStoryMetadata e.id updates hupd _ hmem]
    exact List.count_eq_one_of_mem
      (nodup_idsOf_saveLocalStoryMetadata e c h) hmem

/-- Concrete instance of the upsert theorem: upserting id `a` into a cache
holding only id `b` leaves exactly one entry with id `a`. -/
theorem saveLocalStoryMetadata_upsert_unique_witness :
    (idsOf (saveLocalStoryMetadata
      { id := "a", title := "t", description := "d", generatedTime := none,
        duration := 0, status := StoryStatus.processing, thumbnail := none }
      [{ id := "b", title := "u", description := "e", generatedTime := none,
         duration := 1, status := StoryStatus.completed, thumbnail := none }])).count
      "a" = 1 := by
  have h := saveLocalStoryMetadata_upsert_unique
    { id := "a", title := "t", description := "d", generatedTime := none,
      duration := 0, status := StoryStatus.processing, thumbnail := none }
    [{ id := "b", title := "u", description := "e", generatedTime := none,
       duration := 1, status := StoryStatus.completed, thumbnail := none }]
    (by simp [idsOf])
  have h4 := h.2.2.2 [] (by simp)
  simpa using h4

lemma lookupStatus_cons (sid : String) (s : LocalStoryMetadata)
    (rest : List LocalStoryMetadata) :
    lookupStatus sid (s :: rest) =
      if s.id = sid then some s.status else lookupStatus sid rest := by
  by_cases h : s.id = sid <;> simp [lookupStatus, List.find?, h]

lemma lookupStatus_updateLocalStoryStatus_self (sid : String)
    (st : StoryStatus) :
    ∀ c : List LocalStoryMetadata, (∃ e ∈ c, e.id = sid) →
      lookupStatus sid (updateLocalStoryStatus sid st c) = some st := by
  intro c
  induction c with
  | nil =>
    rintro ⟨e, he, _⟩
    exact absurd he (List.not_mem_nil e)
  | cons s rest ih =>
    rintro ⟨e, he, hid⟩
    by_cases hs : s.id = sid
    · simp [updateLocalStoryStatus, hs, lookupStatus_cons]
    · have hrest : ∃ x ∈ rest, x.id = sid := by
        rcases List.mem_cons.mp he with he | he
        · exact absurd (he ▸ hid) hs
        · exact ⟨e, he, hid⟩
      simp [updateLocalStoryStatus, hs, lookupStatus_cons, ih hrest]

lemma pollAux_stillProcessing (responses : Nat → AttemptResult) (sid : String)
    (h : ∀ n, StillProcessingResp (responses n)) :
    ∀ remaining attempt : Nat, ∀ st : PollState,
      pollAux responses sid attempt remaining st =
        (PollResult.timeout,
         { cache := updateLocalStoryStatus sid StoryStatus.failed st.cache
           progress :=
             st.progress ++ List.replicate remaining StoryStatus.processing
           waits := st.waits ++ List.replicate (remaining - 1) pollInterval
           fetchCount := st.fetchCount + remaining }) := by
  intro remaining
  induction remaining with
  | zero =>
    intro attempt st
    simp [pollAux]
  | succ r ih =>
    intro attempt st
    obtain ⟨resp, hr, hstory, hstatus⟩ := h attempt
    have hsome : resp.story.isSome = false := by rw [hstory]; rfl
    by_cases hr0 : r = 0
    · subst hr0
      simp only [pollAux, hr, hsome, Bool.false_eq_true, and_false, dite_false,
        hstatus, reduceIte, ih]
      simp [List.replicate_succ]
    · simp only [pollAux, hr, hsome, Bool.false_eq_true, and_false, dite_false,
        hstatus, reduceIte, if_neg hr0, ih]
      obtain ⟨s, rfl⟩ := Nat.exists_eq_succ_of_ne_zero hr0
      simp [List.replicate_succ, List.append_assoc]
      omega

lemma exists_entry_of_lookupStatus (sid : String)
    (c : List LocalStoryMetadata) (st : StoryStatus)
    (h : lookupStatus sid c = some st) : ∃ e ∈ c, e.id = sid := by
  unfold lookupStatus at h
  cases hf : c.find? (fun s => s.id = sid) with
  | none => rw [hf] at h; exact absurd h (by simp)
  | some e =>
    have hmem := List.mem_of_find?_eq_some hf
    have hp := List.find?_some hf
    exact ⟨e, hmem, of_decide_eq_true hp⟩

lemma pollAux_success_step (responses : Nat → AttemptResult) (sid : String)
    (attempt r : Nat) (st : PollState) (resp : StoryApiResponse)
    (raw : RawServerStory) (h1 : responses attempt = AttemptResult.ok resp)
    (h2 : resp.success = true) (h3 : resp.story = some raw) :
    pollAux responses sid attempt (r + 1) st =
      (PollResult.success (convertServerStoryFormat raw),
       { st with
           fetchCount := st.fetchCount + 1
           cache := saveLocalStoryMetadata (completedEntry sid raw) st.cache }) := by
  obtain ⟨su, me, si, sta, sto⟩ := resp
  simp only at h2 h3
  subst h2
  subst h3
  simp [pollAux, h1]

/-- C1 counterexample: a fetch response reporting success with a
`status=completed` story whose `scenes` list is empty is classified by
`pollStoryCompletion` as a successful completion — it returns the converted
story and records `completed` (not `failed`) in the cache. -/
theorem poll_empty_scenes_completed_cex :
    (convertServerStoryFormat emptyScenesRaw).scenes = []
  ∧ (pollStoryCompletion (fun _ => AttemptResult.ok emptyScenesResp) "s1" []).1 =
      PollResult.success (convertServerStoryFormat emptyScenesRaw)
  ∧ lookupStatus "s1"
      (pollStoryCompletion (fun _ => AttemptResult.ok emptyScenesResp)
        "s1" []).2.cache = some StoryStatus.completed := by
  decide

/-- C1 amended: when the first fetch response has `success` set and carries a
story object — even one whose `scenes` list is empty — `pollStoryCompletion`
resolves successfully with the converted story and upserts a cache entry with
`status=completed` (and, for an empty scenes list, no thumbnail); the empty
list is never mapped to `failed`. -/
theorem poll_success_story_completed_amended (responses : Nat → AttemptResult)
    (sid : String) (cache : List LocalStoryMetadata)
    (resp : StoryApiResponse) (raw : RawServerStory)
    (h1 : responses 1 = AttemptResult.ok resp) (h2 : resp.success = true)
    (h3 : resp.story = some raw) (h4 : raw.scenes = some []) :
    pollStoryCompletion responses sid cache =
      (PollResult.success (convertServerStoryFormat raw),
       { cache := saveLocalStoryMetadata (completedEntry sid raw) cache
         progress := [], waits := [], fetchCount := 1 })
  ∧ (completedEntry sid raw).status = StoryStatus.completed
  ∧ (completedEntry sid raw).thumbnail = none := by
  refine ⟨?_, rfl, ?_⟩
  · rw [pollStoryCompletion, show maxAttempts = 19 + 1 from rfl,
      pollAux_success_step responses sid 1 19 _ resp raw h1 h2 h3]
  · simp [completedEntry, convertServerStoryFormat, h4]

/-- Instance of the amended C1 theorem at the concrete empty-scenes
response. -/
theorem poll_success_story_completed_amended_witness :
    pollStoryCompletion (fun _ => AttemptResult.ok emptyScenesResp) "s1w" [] =
      (PollResult.success (convertServerStoryFormat emptyScenesRaw),
       { cache := saveLocalStoryMetadata (completedEntry "s1w" emptyScenesRaw) []
         progress := [], waits := [], fetchCount := 1 }) :=
  (poll_success_story_completed_amended _ "s1w" [] emptyScenesResp
    emptyScenesRaw rfl rfl rfl rfl).1

/-- C3: when every fetch reports still-processing, the loop performs exactly
20 fetch attempts separated by 19 fixed 15-second sleeps, resolves with the
timed-out outcome, and patches the story's cache entry to `failed`. -/
theorem pollStoryCompletion_timeout (responses : Nat → AttemptResult)
    (sid : String) (cache : List LocalStoryMetadata)
    (h : ∀ n, StillProcessingResp (responses n)) :
    pollStoryCompletion responses sid cache =
      (PollResult.timeout,
       { cache := updateLocalStoryStatus sid StoryStatus.failed cache
         progress := List.replicate 20 StoryStatus.processing
         waits := List.replicate 19 pollInterval
         fetchCount := 20 })
  ∧ ((∃ e ∈ cache, e.id = sid) →
      lookupStatus sid (pollStoryCompletion responses sid cache).2.cache =
        some StoryStatus.failed) := by
  have hmain := pollAux_stillProcessing responses sid h maxAttempts 1
    { cache := cache, progress := [], waits := [], fetchCount := 0 }
  constructor
  · rw [pollStoryCompletion, hmain]
    simp [maxAttempts]
  · intro hex
    rw [pollStoryCompletion, hmain]
    exact lookupStatus_updateLocalStoryStatus_self sid _ cache hex

/-- Instance of the timeout theorem: a processing placeholder entry for `s3`
ends up `failed` after always-processing responses. -/
theorem pollStoryCompletion_timeout_witness :
    lookupStatus "s3"
      (pollStoryCompletion (fun _ => AttemptResult.ok processingResp) "s3"
        [processingEntryS3]).2.cache = some StoryStatus.failed :=
  (pollStoryCompletion_timeout _ "s3" [processingEntryS3]
      (fun _ => ⟨processingResp, rfl, rfl, rfl⟩)).2
    ⟨processingEntryS3, by simp, rfl⟩

/-- C8 counterexample: an entry in the terminal `completed` state is moved out
of it by engine cache operations — polling id `s4` (already `completed` in the
cache) against a server that keeps answering `processing` ends by patching
that entry to `failed`. -/
theorem terminal_status_overwritten_cex :
    lookupStatus "s4" [completedEntryS4] = some StoryStatus.completed
  ∧ lookupStatus "s4"
      (pollStoryCompletion (fun _ => AttemptResult.ok processingResp) "s4"
        [completedEntryS4]).2.cache = some StoryStatus.failed := by
  decide

/-- C8 amended: the cache operations overwrite an entry's status
unconditionally — nothing guards terminal states. In particular a `completed`
entry is re-patched to `failed` by a timed-out poll loop for the same id. -/
theorem poll_overwrites_completed_amended (responses : Nat → AttemptResult)
    (sid : String) (cache : List LocalStoryMetadata)
    (h1 : ∀ n, StillProcessingResp (responses n))
    (h2 : lookupStatus sid cache = some StoryStatus.completed) :
    lookupStatus sid (pollStoryCompletion responses sid cache).2.cache =
      some StoryStatus.failed := by
  have hex := exists_entry_of_lookupStatus sid cache StoryStatus.completed h2
  have hmain := pollAux_stillProcessing responses sid h1 maxAttempts 1
    { cache := cache, progress := [], waits := [], fetchCount := 0 }
  rw [pollStoryCompletion, hmain]
  exact lookupStatus_updateLocalStoryStatus_self sid _ cache hex

/-- Instance of the amended C8 theorem at the concrete completed entry
`s5`. -/
theorem poll_overwrites_completed_amended_witness :
    lookupStatus "s5"
      (pollStoryCompletion (fun _ => AttemptResult.ok processingResp) "s5"
        [completedEntryS5]).2.cache = some StoryStatus.failed :=
  poll_overwrites_completed_amended _ "s5" [completedEntryS5]
    (fun _ => ⟨processingResp, rfl, rfl, rfl⟩) (by decide)

/-- C4: when the generate call succeeds with a (non-empty) job id, exactly one
placeholder entry is upserted — title `Generating...`, description the
prompt, `generatedTime` the submission time, status `processing` — and the
job id is returned; a thrown request or an unsuccessful response is surfaced
as an error with the cache left untouched. -/
theorem generateStory_placeholder_spec (now prompt : String)
    (cache : List LocalStoryMetadata) :
    (∀ r : StoryApiResponse, ∀ sid : String, r.success = true →
        r.story_id = some sid → sid ≠ "" →
        generateStory now prompt (Except.ok r) cache =
          (GenerateResult.ok sid (r.status.getD StoryStatus.processing),
           saveLocalStoryMetadata
             { id := sid, title := "Generating...", description := prompt,
               generatedTime := some now, duration := 0,
               status := StoryStatus.processing, thumbnail := none } cache))
  ∧ (∀ e : String, generateStory now prompt (Except.error e) cache =
        (GenerateResult.error e, cache))
  ∧ (∀ r : StoryApiResponse,
        r.success = false ∨ r.story_id = none ∨ r.story_id = some "" →
        ∃ msg, generateStory now prompt (Except.ok r) cache =
          (GenerateResult.error msg, cache)) := by
  refine ⟨?_, fun e => rfl, ?_⟩
  · intro r sid h1 h2 h3
    simp [generateStory, h2, h1, h3]
  · intro r hr
    cases hsid : r.story_id with
    | none =>
      exact ⟨jsOrString r.message "Failed to start story generation",
        by simp [generateStory, hsid]⟩
    | some s =>
      rcases hr with h | h | h
      · exact ⟨jsOrString r.message "Failed to start story generation",
          by simp [generateStory, hsid, h]⟩
      · rw [hsid] at h; cases h
      · rw [hsid] at h
        injection h with h
        subst h
        exact ⟨jsOrString r.message "Failed to start story generation",
          by simp [generateStory, hsid]⟩

/-- Instance of the generate-placeholder theorem at a successful response. -/
theorem generateStory_placeholder_spec_witness :
    generateStory "2026-02-02T00:00:00Z" "a pony story"
      (Except.ok generateOkResp) [] =
      (GenerateResult.ok "job-1" StoryStatus.processing,
       [{ id := "job-1", title := "Generating...",
          description := "a pony story",
          generatedTime := some "2026-02-02T00:00:00Z", duration := 0,
          status := StoryStatus.processing, thumbnail := none }]) := by
  have h := (generateStory_placeholder_spec "2026-02-02T00:00:00Z"
    "a pony story" []).1 generateOkResp "job-1" rfl rfl (by decide)
  rw [h]
  decide

/-- C6: when the list request fails, `getUserStories` returns exactly the
current cache contents and leaves the cache unchanged; a non-empty cache
yields a non-empty result. -/
theorem getUserStories_failure_fallback (e : String)
    (cache : List LocalStoryMetadata) :
    getUserStories (Except.error e) cache = (cache, cache)
  ∧ (cache ≠ [] → (getUserStories (Except.error e) cache).1 ≠ []) := by
  exact ⟨rfl, fun h => h⟩

/-- Instance of the fallback theorem at a non-empty one-entry cache. -/
theorem getUserStories_failure_fallback_witness :
    getUserStories (Except.error "network request failed")
      [completedEntryS4] = ([completedEntryS4], [completedEntryS4])
  ∧ (getUserStories (Except.error "network request failed")
      [completedEntryS4]).1 ≠ [] :=
  ⟨(getUserStories_failure_fallback "network request failed"
      [completedEntryS4]).1,
   (getUserStories_failure_fallback "network request failed"
      [completedEntryS4]).2 (by decide)⟩

/-- C7: on a first-attempt auth-class error the wrapper refreshes exactly
once; after a successful refresh it retries exactly once; a failing refresh
or a failing retry propagates that failure and prompts the sign-out — there
is never a second refresh or a second retry. -/
theorem executeApiCall_single_refresh_retry {T : Type}
    (first : Except JsError T) (refreshRes : Except JsError Unit)
    (second : Except JsError T) (e : JsError)
    (h1 : first = Except.error e) (h2 : isTokenRelatedError e = true) :
    (executeApiCall first refreshRes second true).refreshAttempts = 1
  ∧ (executeApiCall first refreshRes second true).callAttempts ≤ 2
  ∧ (∀ re, refreshRes = Except.error re →
      executeApiCall first refreshRes second true =
        { result := Except.error re, refreshAttempts := 1, callAttempts := 1,
          signOutPrompted := true })
  ∧ (∀ v, refreshRes = Except.ok () → second = Except.ok v →
      executeApiCall first refreshRes second true =
        { result := Except.ok v, refreshAttempts := 1, callAttempts := 2,
          signOutPrompted := false })
  ∧ (∀ e2, refreshRes = Except.ok () → second = Except.error e2 →
      executeApiCall first refreshRes second true =
        { result := Except.error e2, refreshAttempts := 1, callAttempts := 2,
          signOutPrompted := true }) := by
  subst h1
  refine ⟨?_, ?_, ?_, ?_, ?_⟩
  · cases refreshRes with
    | error re => simp [executeApiCall, h2]
    | ok u => cases second <;> simp [executeApiCall, h2]
  · cases refreshRes with
    | error re => simp [executeApiCall, h2]
    | ok u => cases second <;> simp [executeApiCall, h2]
  · rintro re rfl
    simp [executeApiCall, h2]
  · rintro v rfl rfl
    simp [executeApiCall, h2]
  · rintro e2 rfl rfl
    simp [executeApiCall, h2]

/-- Instance of the refresh-retry theorem: a 401 first attempt followed by a
failing refresh propagates the refresh failure with one refresh, one call
attempt and a sign-out prompt. -/
theorem executeApiCall_single_refresh_retry_witness :
    executeApiCall (Except.error authError401)
      (Except.error refreshFailure) (Except.ok (0 : Nat)) true =
      { result := Except.error refreshFailure, refreshAttempts := 1,
        callAttempts := 1, signOutPrompted := true } :=
  (executeApiCall_single_refresh_retry (Except.error authError401)
      (Except.error refreshFailure) (Except.ok (0 : Nat)) authError401 rfl
      (by decide)).2.2.1 refreshFailure rfl

/-- C9 counterexample: the API client raises no validation error for an empty
prompt — against a server that accepts the request, `generateStory("")`
succeeds and yields the job id `job-1`, and the engine happily records it. -/
theorem empty_prompt_jobid_cex :
    apiGenerateStory "" "token-1" acceptingServer = Except.ok generateOkResp
  ∧ (generateStory "2026-03-03T00:00:00Z" ""
      (apiGenerateStory "" "token-1" acceptingServer) []).1 =
      GenerateResult.ok "job-1" StoryStatus.processing :=
  ⟨rfl, rfl⟩

/-- C9 amended: the remote client performs no prompt validation — it forwards
every request verbatim, so whether an empty prompt yields a job id is decided
by the server alone; empty prompts are rejected only by the UI handler, which
alerts and performs no API call when the trimmed prompt is empty. -/
theorem generate_no_prompt_validation_amended (prompt token : String)
    (server : GenerateRequest → Except String StoryApiResponse)
    (tok : Option String) (h : jsTrim prompt = "") :
    apiGenerateStory prompt token server =
      server { firebase_token := token, prompt := prompt }
  ∧ handleGenerateStory prompt tok = GenerateUiOutcome.alertPromptRequired := by
  exact ⟨rfl, by simp [handleGenerateStory, h]⟩

/-- Instance of the amended C9 theorem at a whitespace prompt. -/
theorem generate_no_prompt_validation_amended_witness :
    apiGenerateStory " " "tok-2" acceptingServer =
      acceptingServer { firebase_token := "tok-2", prompt := " " }
  ∧ handleGenerateStory " " (some "tok-2") =
      GenerateUiOutcome.alertPromptRequired :=
  generate_no_prompt_validation_amended " " "tok-2" acceptingServer
    (some "tok-2") (by decide)

/-- C10: a server story without a `status` field converts to `completed`
(both in `convertServerStoryFormat` and in the list mapping of
`getUserStories`); an absent `total_scenes` defaults to the length of the
(possibly defaulted) scenes list, and absent `scenes` default to `[]`. -/
theorem convert_defaults_completed (raw : RawServerStory)
    (h : raw.status = none) :
    (convertServerStoryFormat raw).status = StoryStatus.completed
  ∧ (raw.total_scenes = none →
      (convertServerStoryFormat raw).total_scenes =
        (convertServerStoryFormat raw).scenes.length)
  ∧ (raw.scenes = none → (convertServerStoryFormat raw).scenes = [])
  ∧ (serverToLocal raw).status = StoryStatus.completed := by
  refine ⟨by simp [convertServerStoryFormat, h], ?_, ?_,
    by simp [serverToLocal, h]⟩
  · intro h2
    cases hs : raw.scenes with
    | none => simp [convertServerStoryFormat, h2, hs, jsOrNat]
    | some l =>
      by_cases hl : l.length = 0
      · simp [convertServerStoryFormat, h2, hs, jsOrNat, hl]
      · simp [convertServerStoryFormat, h2, hs, jsOrNat, hl]
  · intro h3
    simp [convertServerStoryFormat, h3]

/-- Instance of the conversion-defaults theorem at a status-less record. -/
theorem convert_defaults_completed_witness :
    (convertServerStoryFormat statuslessRaw).status = StoryStatus.completed
  ∧ (convertServerStoryFormat statuslessRaw).total_scenes =
      (convertServerStoryFormat statuslessRaw).scenes.length
  ∧ (serverToLocal statuslessRaw).status = StoryStatus.completed :=
  have h := convert_defaults_completed statuslessRaw rfl
  ⟨h.1, h.2.1 rfl, h.2.2.2⟩

lemma playerStep_resolve_succ (ia : Bool) (n : Nat)
    (sto : Option RawServerStory) (cw : Nat) (resp : StoryApiResponse) :
    playerStep
      { intervalActive := ia, inFlight := n + 1, story := sto,
        cacheWrites := cw } (PlayerEvent.resolve resp) =
      if h : resp.success = true ∧ resp.story.isSome then
        if (resp.story.get h.2).status = some StoryStatus.completed then
          { intervalActive := false, inFlight := n,
            story := some (resp.story.get h.2), cacheWrites := cw }
        else
          { intervalActive := ia, inFlight := n,
            story := some (resp.story.get h.2), cacheWrites := cw }
      else
        { intervalActive := ia, inFlight := n, story := sto,
          cacheWrites := cw } := rfl

lemma playerStep_cacheWrites (st : PlayerPollState) (ev : PlayerEvent) :
    (playerStep st ev).cacheWrites = st.cacheWrites := by
  obtain ⟨ia, fl, sto, cw⟩ := st
  cases ev with
  | tick => by_cases h : ia <;> simp [playerStep, h]
  | cancel => rfl
  | resolve resp =>
    cases fl with
    | zero => rfl
    | succ n =>
      rw [playerStep_resolve_succ]
      by_cases h : resp.success = true ∧ resp.story.isSome
      · rw [dif_pos h]
        by_cases hs :
            (resp.story.get h.2).status = some StoryStatus.completed <;>
          simp [hs]
      · rw [dif_neg h]

lemma foldl_playerStep_cacheWrites :
    ∀ events : List PlayerEvent, ∀ st : PlayerPollState,
      (events.foldl playerStep st).cacheWrites = st.cacheWrites := by
  intro events
  induction events with
  | nil => intro st; rfl
  | cons ev rest ih =>
    intro st
    rw [List.foldl_cons, ih, playerStep_cacheWrites]

/-- C2 counterexample: the player poll loop, cancelled right after its first
tick dispatched a fetch, still applies that fetch's late-arriving result —
the resolved story is written to the in-memory story state rather than being
discarded at a cancellation check. -/
theorem late_resolve_applied_cex :
    (runPlayerPoll none [PlayerEvent.tick, PlayerEvent.cancel]).intervalActive
        = false
  ∧ (runPlayerPoll none
      [PlayerEvent.tick, PlayerEvent.cancel,
       PlayerEvent.resolve lateResp]).story = some lateRaw := by
  decide

/-- C2 amended: after cancellation no further fetch is dispatched (ticks are
no-ops) and the player poll loop never writes the local story cache; but a
fetch already in flight at cancellation is not discarded — on resolution its
story is still applied to the in-memory story state. -/
theorem cancelled_poll_no_new_fetches_amended (st : PlayerPollState)
    (events : List PlayerEvent) (story0 : Option RawServerStory)
    (resp : StoryApiResponse) (raw : RawServerStory) (n : Nat)
    (h1 : st.intervalActive = false) (h2 : st.inFlight = n + 1)
    (h3 : resp.success = true) (h4 : resp.story = some raw) :
    playerStep st PlayerEvent.tick = st
  ∧ (playerStep st (PlayerEvent.resolve resp)).story = some raw
  ∧ (runPlayerPoll story0 events).cacheWrites = 0 := by
  obtain ⟨ia, fl, sto, cw⟩ := st
  simp only at h1 h2
  subst h1
  subst h2
  refine ⟨by simp [playerStep], ?_, ?_⟩
  · obtain ⟨su, me, si, sta, rsto⟩ := resp
    simp only at h3 h4
    subst h3
    subst h4
    rw [playerStep_resolve_succ]
    rw [dif_pos (⟨rfl, rfl⟩ : (true = true ∧ (some raw).isSome = true))]
    by_cases hs : raw.status = some StoryStatus.completed <;> simp [hs]
  · exact foldl_playerStep_cacheWrites events _

/-- Instance of the amended C2 theorem: a cancelled state with one in-flight
fetch ignores ticks yet applies the resolved story. -/
theorem cancelled_poll_no_new_fetches_amended_witness :
    playerStep
      { intervalActive := false, inFlight := 1, story := none,
        cacheWrites := 0 } PlayerEvent.tick =
      { intervalActive := false, inFlight := 1, story := none,
        cacheWrites := 0 }
  ∧ (playerStep
      { intervalActive := false, inFlight := 1, story := none,
        cacheWrites := 0 } (PlayerEvent.resolve lateResp)).story =
      some lateRaw :=
  have h := cancelled_poll_no_new_fetches_amended
    { intervalActive := false, inFlight := 1, story := none,
      cacheWrites := 0 } [] none lateResp lateRaw 0 rfl rfl rfl rfl
  ⟨h.1, h.2.1⟩
